import Mathlib

/-!
Verification of the device-admission core of the EAATA-Brasil backendAppShop
backend (src/server.js): the `POST /api/device-check` handler, the
`POST /api/settings` handler, and the effective-limit coercions.

The embedding models the persisted database as an explicit state
(`DBState`: the singleton `settings` row and the `devices` table), every
SQL statement the handler issues as an `Attempt` recorded in a trace, and
transient persistence failures as boolean fault flags (`DBFaults`), one per
SQL statement the handler can issue.  The handler body is translated
statement by statement from src/server.js lines 111-173 (`deviceCheck`)
and lines 89-109 (`settingsUpsert`).
-/

namespace BackendAppShop

/-- A row of the `devices` table: `(customer_id, device_id, last_seen)`.
`last_seen` (`NOW()` in SQL) is modelled as an abstract clock value. -/
structure DeviceRow where
  customer_id : String
  device_id : String
  last_seen : Nat
  deriving DecidableEq, Repr

/-- The singleton `settings` row: `max_devices` and `block_message`.
`max_devices` is an arbitrary integer: `POST /api/settings` accepts zero
and negative values (src/server.js line 93 only checks `=== undefined`). -/
structure SettingsRow where
  max_devices : Int
  block_message : String
  deriving DecidableEq, Repr

/-- The persisted state read and mutated by the handlers. -/
structure DBState where
  settings : Option SettingsRow
  devices : List DeviceRow
  deriving DecidableEq, Repr

/-- One fault flag per SQL statement of the device-check handler: whether
that statement, if reached, throws (the `catch` branches of
src/server.js lines 120-168). -/
structure DBFaults where
  settingsReadFails : Bool
  devicesReadFails : Bool
  updateFails : Bool
  insertFails : Bool
  deriving DecidableEq, Repr

/-- A fault-free run: every SQL statement succeeds. -/
def noFaults : DBFaults := ⟨false, false, false, false⟩

/-- The HTTP responses the device-check handler can produce:
`ok` is a 200 `{status:'ok', message}`, `badRequest` a 400 `{error}`,
`forbidden` a 403 `{error}`, `serverError` a 500 `{error}`. -/
inductive Response where
  | ok (message : String)
  | badRequest (error : String)
  | forbidden (error : String)
  | serverError (error : String)
  deriving DecidableEq, Repr

/-- The SQL statements the device-check handler can issue. -/
inductive DBOp where
  | readSettings
  | readDevices (customer_id : String)
  | updateLastSeen (customer_id : String) (device_id : String)
  | insertDevice (customer_id : String) (device_id : String)
  deriving DecidableEq, Repr

/-- Whether a statement writes to the `devices` table. -/
def DBOp.isMutation : DBOp → Bool
  | .updateLastSeen _ _ => true
  | .insertDevice _ _ => true
  | _ => false

/-- One executed SQL statement and whether it succeeded. -/
structure Attempt where
  op : DBOp
  ok : Bool
  deriving DecidableEq, Repr

/-- Result of one device-check call: the HTTP response, the persisted
state afterwards, and the trace of SQL statements executed. -/
structure CheckResult where
  response : Response
  state : DBState
  trace : List Attempt
  deriving DecidableEq, Repr

/-- JavaScript falsiness of an optional string field of the JSON body:
`!x` is true exactly when the field is missing or the empty string. -/
def jsFalsy : Option String → Bool
  | none => true
  | some s => decide (s = "")

/-- `config?.max_devices || 2` (src/server.js line 128): a missing row or
a falsy (zero) stored value both yield the default 2. -/
def effectiveMaxDevices (config : Option SettingsRow) : Int :=
  match config with
  | none => 2
  | some c => if c.max_devices = 0 then 2 else c.max_devices

/-- `config?.block_message || 'Limite de dispositivos atingido.'`
(src/server.js line 129): a missing row or an empty stored message both
yield the default message. -/
def effectiveBlockMessage (config : Option SettingsRow) : String :=
  match config with
  | none => "Limite de dispositivos atingido."
  | some c => if c.block_message = "" then "Limite de dispositivos atingido." else c.block_message

/-- The `config` value the handler works with: `null` when the settings
read throws (src/server.js lines 120-126), the stored row otherwise. -/
def callConfig (f : DBFaults) (st : DBState) : Option SettingsRow :=
  if f.settingsReadFails then none else st.settings

/-- `SELECT * FROM devices WHERE customer_id = ${customer_id}`
(src/server.js lines 132-134). -/
def customerDevices (st : DBState) (cid : String) : List DeviceRow :=
  st.devices.filter (fun r => decide (r.customer_id = cid))

/-- The device identifiers registered for a customer. -/
def registeredIds (st : DBState) (cid : String) : List String :=
  (customerDevices st cid).map DeviceRow.device_id

/-- `UPDATE devices SET last_seen = NOW() WHERE customer_id = ... AND
device_id = ...` (src/server.js lines 144-146). -/
def applyUpdateLastSeen (now : Nat) (cid did : String) (rows : List DeviceRow) : List DeviceRow :=
  rows.map (fun r => if r.customer_id = cid ∧ r.device_id = did then { r with last_seen := now } else r)

/-- The body of the device-check handler after validation
(src/server.js lines 118-168), parameterised by the `config` the settings
read produced and acting on the `devices` table.  Returns the response,
the new `devices` table, and the trace of SQL statements executed. -/
def deviceCheckCore (f : DBFaults) (now : Nat) (cid did : String)
    (config : Option SettingsRow) (devices : List DeviceRow) :
    Response × List DeviceRow × List Attempt :=
  let t1 : Attempt := ⟨.readSettings, !f.settingsReadFails⟩
  let maxDevices := effectiveMaxDevices config
  let blockMessage := effectiveBlockMessage config
  if f.devicesReadFails then
    (.serverError "Erro ao verificar dispositivos", devices, [t1, ⟨.readDevices cid, false⟩])
  else
    let t2 : Attempt := ⟨.readDevices cid, true⟩
    let dispositivos := devices.filter (fun r => decide (r.customer_id = cid))
    match dispositivos.find? (fun r => decide (r.device_id = did)) with
    | some _ =>
      if f.updateFails then
        (.ok "Dispositivo já registrado", devices, [t1, t2, ⟨.updateLastSeen cid did, false⟩])
      else
        (.ok "Dispositivo já registrado", applyUpdateLastSeen now cid did devices,
          [t1, t2, ⟨.updateLastSeen cid did, true⟩])
    | none =>
      if (dispositivos.length : Int) ≥ maxDevices then
        (.forbidden blockMessage, devices, [t1, t2])
      else if f.insertFails then
        (.serverError "Erro ao registrar dispositivo", devices, [t1, t2, ⟨.insertDevice cid did, false⟩])
      else
        (.ok "Dispositivo registrado", devices ++ [⟨cid, did, now⟩],
          [t1, t2, ⟨.insertDevice cid did, true⟩])

/-- The `POST /api/device-check` handler (src/server.js lines 111-173):
validate the body, then run the core on the current state. -/
def deviceCheck (f : DBFaults) (now : Nat) (customer_id device_id : Option String)
    (st : DBState) : CheckResult :=
  if jsFalsy customer_id || jsFalsy device_id then
    ⟨.badRequest "Faltando customer_id ou device_id", st, []⟩
  else
    let r := deviceCheckCore f now (customer_id.getD "") (device_id.getD "") (callConfig f st) st.devices
    ⟨r.1, ⟨st.settings, r.2.1⟩, r.2.2⟩

/-- Responses of the `POST /api/settings` handler: `okTrue` is its 200
`{ok: true}`, `badRequest` its 400 `{error}`. -/
inductive SettingsResponse where
  | okTrue
  | badRequest (error : String)
  deriving DecidableEq, Repr

/-- The `POST /api/settings` handler (src/server.js lines 89-109):
reject only `max_devices === undefined` and falsy `block_message`, then
upsert the singleton settings row. -/
def settingsUpsert (max_devices : Option Int) (block_message : Option String)
    (st : DBState) : SettingsResponse × DBState :=
  if max_devices.isNone || jsFalsy block_message then
    (.badRequest "max_devices e block_message são obrigatórios", st)
  else
    (.okTrue, ⟨some ⟨max_devices.getD 0, block_message.getD ""⟩, st.devices⟩)

/-- A sequence of device-check calls for one customer, threading the
state; collects the responses. -/
def runChecks (f : DBFaults) (now : Nat) (cid : String) (dids : List String)
    (st : DBState) : List Response × DBState :=
  match dids with
  | [] => ([], st)
  | d :: rest =>
    let r := deviceCheck f now (some cid) (some d) st
    let p := runChecks f now cid rest r.state
    (r.response :: p.1, p.2)

/-- Sanity: with no settings row a first device registers. -/
theorem sanity_register :
    (deviceCheck noFaults 0 (some "c1") (some "d1") ⟨none, []⟩).response
      = Response.ok "Dispositivo registrado" := by decide

/-- Sanity: with the default limit 2 the third distinct device is denied
with the default block message. -/
theorem sanity_third_denied :
    (runChecks noFaults 0 "c1" ["d1", "d2", "d3"] ⟨none, []⟩).1
      = [Response.ok "Dispositivo registrado", Response.ok "Dispositivo registrado",
         Response.forbidden "Limite de dispositivos atingido."] := by decide

/-! ### Helper lemmas about the table operations -/

/-- The timestamp refresh does not change a row's `customer_id`. -/
theorem applyUpdate_customer_id (now : Nat) (cid did : String) (r : DeviceRow) :
    ((if r.customer_id = cid ∧ r.device_id = did then { r with last_seen := now } else r) : DeviceRow).customer_id
      = r.customer_id := by
  split <;> rfl

/-- The timestamp refresh does not change a row's `device_id`. -/
theorem applyUpdate_device_id (now : Nat) (cid did : String) (r : DeviceRow) :
    ((if r.customer_id = cid ∧ r.device_id = did then { r with last_seen := now } else r) : DeviceRow).device_id
      = r.device_id := by
  split <;> rfl

theorem applyUpdateLastSeen_length (now : Nat) (cid did : String) (l : List DeviceRow) :
    (applyUpdateLastSeen now cid did l).length = l.length := by
  simp [applyUpdateLastSeen]

theorem filter_applyUpdateLastSeen (now : Nat) (cid did c : String) (l : List DeviceRow) :
    (applyUpdateLastSeen now cid did l).filter (fun r => decide (r.customer_id = c))
      = applyUpdateLastSeen now cid did (l.filter (fun r => decide (r.customer_id = c))) := by
  unfold applyUpdateLastSeen
  rw [List.filter_map]
  congr 1
  apply List.filter_congr
  intro r _
  simp only [Function.comp_apply]
  rw [applyUpdate_customer_id]

theorem map_deviceId_applyUpdateLastSeen (now : Nat) (cid did : String) (l : List DeviceRow) :
    (applyUpdateLastSeen now cid did l).map DeviceRow.device_id = l.map DeviceRow.device_id := by
  unfold applyUpdateLastSeen
  rw [List.map_map]
  congr 1
  funext r
  simp only [Function.comp_apply]
  rw [applyUpdate_device_id]

theorem customerDevices_update (s : Option SettingsRow) (now : Nat) (cid did c : String)
    (l : List DeviceRow) :
    customerDevices ⟨s, applyUpdateLastSeen now cid did l⟩ c
      = applyUpdateLastSeen now cid did (customerDevices ⟨s, l⟩ c) := by
  simp only [customerDevices]
  exact filter_applyUpdateLastSeen now cid did c l

theorem registeredIds_update (s : Option SettingsRow) (now : Nat) (cid did c : String)
    (l : List DeviceRow) :
    registeredIds ⟨s, applyUpdateLastSeen now cid did l⟩ c = registeredIds ⟨s, l⟩ c := by
  simp only [registeredIds, customerDevices_update]
  exact map_deviceId_applyUpdateLastSeen now cid did _

theorem customerDevices_append (s : Option SettingsRow) (l : List DeviceRow)
    (row : DeviceRow) (c : String) :
    customerDevices ⟨s, l ++ [row]⟩ c
      = customerDevices ⟨s, l⟩ c ++ (if row.customer_id = c then [row] else []) := by
  simp only [customerDevices, List.filter_append]
  by_cases h : row.customer_id = c <;> simp [h]

theorem registeredIds_append (s : Option SettingsRow) (l : List DeviceRow)
    (row : DeviceRow) (c : String) :
    registeredIds ⟨s, l ++ [row]⟩ c
      = registeredIds ⟨s, l⟩ c ++ (if row.customer_id = c then [row.device_id] else []) := by
  simp only [registeredIds, customerDevices_append, List.map_append]
  by_cases h : row.customer_id = c <;> simp [h]

/-- A device identifier is registered for a customer exactly when the
`devices` table has a row pairing the two. -/
theorem mem_registeredIds (st : DBState) (cid did : String) :
    did ∈ registeredIds st cid ↔ ∃ r ∈ st.devices, r.customer_id = cid ∧ r.device_id = did := by
  simp only [registeredIds, customerDevices, List.mem_map, List.mem_filter,
    decide_eq_true_eq]
  constructor
  · rintro ⟨r, ⟨hr, hc⟩, hd⟩
    exact ⟨r, hr, hc, hd⟩
  · rintro ⟨r, hr, hc, hd⟩
    exact ⟨r, ⟨hr, hc⟩, hd⟩

theorem find?_eq_none_of_not_registered (st : DBState) (cid did : String)
    (h : did ∉ registeredIds st cid) :
    (customerDevices st cid).find? (fun r => decide (r.device_id = did)) = none := by
  rw [List.find?_eq_none]
  intro r hr
  simp only [decide_eq_true_eq]
  intro hd
  exact h (List.mem_map.mpr ⟨r, hr, hd⟩)

/-! ### Branch lemmas for the device-check core -/

/-- On valid (non-falsy) identifiers the handler reaches its body. -/
theorem deviceCheck_some (f : DBFaults) (now : Nat) (cid did : String) (st : DBState)
    (hc : ¬ cid = "") (hd : ¬ did = "") :
    deviceCheck f now (some cid) (some did) st
      = ⟨(deviceCheckCore f now cid did (callConfig f st) st.devices).1,
         ⟨st.settings, (deviceCheckCore f now cid did (callConfig f st) st.devices).2.1⟩,
         (deviceCheckCore f now cid did (callConfig f st) st.devices).2.2⟩ := by
  simp [deviceCheck, jsFalsy, hc, hd]

/-- A failing device-set read short-circuits the core. -/
theorem deviceCheckCore_readFail (f : DBFaults) (now : Nat) (cid did : String)
    (config : Option SettingsRow) (devices : List DeviceRow)
    (h : f.devicesReadFails = true) :
    deviceCheckCore f now cid did config devices
      = (Response.serverError "Erro ao verificar dispositivos", devices,
         [⟨DBOp.readSettings, !f.settingsReadFails⟩, ⟨DBOp.readDevices cid, false⟩]) := by
  simp [deviceCheckCore, h]

/-- The already-registered branch: the device row exists, so the core
refreshes (or tries to refresh) `last_seen` and answers 200. -/
theorem deviceCheckCore_already (f : DBFaults) (now : Nat) (cid did : String)
    (config : Option SettingsRow) (devices : List DeviceRow)
    (hr : f.devicesReadFails = false)
    (hmem : ∃ r ∈ devices, r.customer_id = cid ∧ r.device_id = did) :
    deviceCheckCore f now cid did config devices
      = (Response.ok "Dispositivo já registrado",
         (if f.updateFails then devices else applyUpdateLastSeen now cid did devices),
         [⟨DBOp.readSettings, !f.settingsReadFails⟩, ⟨DBOp.readDevices cid, true⟩,
          ⟨DBOp.updateLastSeen cid did, !f.updateFails⟩]) := by
  simp only [deviceCheckCore, hr, Bool.false_eq_true, if_false]
  cases hfind : (devices.filter (fun r => decide (r.customer_id = cid))).find?
      (fun r => decide (r.device_id = did)) with
  | none =>
    exfalso
    obtain ⟨r, hrd, hc, hd⟩ := hmem
    have hrf : r ∈ devices.filter (fun r => decide (r.customer_id = cid)) :=
      List.mem_filter.mpr ⟨hrd, by simp [hc]⟩
    have := List.find?_eq_none.mp hfind r hrf
    simp [hd] at this
  | some r =>
    cases hu : f.updateFails <;> simp [hu]

/-- The fresh-device deny branch: the device is unknown and the customer
is at or over the effective limit, so the core answers 403. -/
theorem deviceCheckCore_deny (f : DBFaults) (now : Nat) (cid did : String)
    (config : Option SettingsRow) (devices : List DeviceRow)
    (hr : f.devicesReadFails = false)
    (hfresh : (devices.filter (fun r => decide (r.customer_id = cid))).find?
        (fun r => decide (r.device_id = did)) = none)
    (hge : effectiveMaxDevices config
        ≤ ((devices.filter (fun r => decide (r.customer_id = cid))).length : Int)) :
    deviceCheckCore f now cid did config devices
      = (Response.forbidden (effectiveBlockMessage config), devices,
         [⟨DBOp.readSettings, !f.settingsReadFails⟩, ⟨DBOp.readDevices cid, true⟩]) := by
  simp only [deviceCheckCore, hr, Bool.false_eq_true, if_false]
  rw [hfresh]
  simp [hge]

/-- The fresh-device register branch: the device is unknown, the customer
is strictly below the effective limit and the insert succeeds. -/
theorem deviceCheckCore_register (f : DBFaults) (now : Nat) (cid did : String)
    (config : Option SettingsRow) (devices : List DeviceRow)
    (hr : f.devicesReadFails = false) (hi : f.insertFails = false)
    (hfresh : (devices.filter (fun r => decide (r.customer_id = cid))).find?
        (fun r => decide (r.device_id = did)) = none)
    (hlt : ((devices.filter (fun r => decide (r.customer_id = cid))).length : Int)
        < effectiveMaxDevices config) :
    deviceCheckCore f now cid did config devices
      = (Response.ok "Dispositivo registrado", devices ++ [⟨cid, did, now⟩],
         [⟨DBOp.readSettings, !f.settingsReadFails⟩, ⟨DBOp.readDevices cid, true⟩,
          ⟨DBOp.insertDevice cid did, true⟩]) := by
  simp only [deviceCheckCore, hr, Bool.false_eq_true, if_false]
  rw [hfresh]
  simp [hi, not_le.mpr hlt]

/-- The fresh-device branch when the insert itself throws. -/
theorem deviceCheckCore_insertFail (f : DBFaults) (now : Nat) (cid did : String)
    (config : Option SettingsRow) (devices : List DeviceRow)
    (hr : f.devicesReadFails = false) (hi : f.insertFails = true)
    (hfresh : (devices.filter (fun r => decide (r.customer_id = cid))).find?
        (fun r => decide (r.device_id = did)) = none)
    (hlt : ((devices.filter (fun r => decide (r.customer_id = cid))).length : Int)
        < effectiveMaxDevices config) :
    deviceCheckCore f now cid did config devices
      = (Response.serverError "Erro ao registrar dispositivo", devices,
         [⟨DBOp.readSettings, !f.settingsReadFails⟩, ⟨DBOp.readDevices cid, true⟩,
          ⟨DBOp.insertDevice cid did, false⟩]) := by
  simp only [deviceCheckCore, hr, Bool.false_eq_true, if_false]
  rw [hfresh]
  simp [hi, not_le.mpr hlt]

theorem not_registered_of_find?_eq_none (st : DBState) (cid did : String)
    (h : (customerDevices st cid).find? (fun r => decide (r.device_id = did)) = none) :
    did ∉ registeredIds st cid := by
  intro hmem
  obtain ⟨r, hr, hd⟩ := List.mem_map.mp hmem
  have := List.find?_eq_none.mp h r hr
  simp [hd] at this

/-- A 500 response of the core comes from the device-set read or the
insert, never from the settings read. -/
theorem deviceCheckCore_serverError (f : DBFaults) (now : Nat) (cid did : String)
    (config : Option SettingsRow) (devices : List DeviceRow) (e : String)
    (h : (deviceCheckCore f now cid did config devices).1 = Response.serverError e) :
    f.devicesReadFails = true ∨ f.insertFails = true := by
  by_cases hr : f.devicesReadFails = true
  · exact Or.inl hr
  right
  by_cases hi : f.insertFails = true
  · exact hi
  exfalso
  have hr2 : f.devicesReadFails = false := by simpa using hr
  have hi2 : f.insertFails = false := by simpa using hi
  cases hfind : (devices.filter (fun r => decide (r.customer_id = cid))).find?
      (fun r => decide (r.device_id = did)) with
  | some r =>
    have hmem : ∃ r2 ∈ devices, r2.customer_id = cid ∧ r2.device_id = did := by
      have h1 := List.mem_of_find?_eq_some hfind
      have h2 := List.find?_some hfind
      have h3 := List.mem_filter.mp h1
      exact ⟨r, h3.1, by simpa using h3.2, by simpa using h2⟩
    rw [deviceCheckCore_already f now cid did config devices hr2 hmem] at h
    simp at h
  | none =>
    by_cases hge : effectiveMaxDevices config
        ≤ ((devices.filter (fun r => decide (r.customer_id = cid))).length : Int)
    · rw [deviceCheckCore_deny f now cid did config devices hr2 hfind hge] at h
      simp at h
    · rw [deviceCheckCore_register f now cid did config devices hr2 hi2 hfind
          (lt_of_not_le hge)] at h
      simp at h

theorem callConfig_noFaults (st : DBState) : callConfig noFaults st = st.settings := rfl

/-! ### The claims -/

/-- Claim C4: a request with a missing or empty `customer_id` or
`device_id` fails with the 400 `InvalidRequest` response, the persisted
state is untouched, and no SQL statement at all is executed (no settings
read, no device-set read, no mutation); in particular the two concrete
calls with an empty identifier fail this way. -/
theorem C4_invalid_request (f : DBFaults) (now : Nat) (c d : Option String) (st : DBState)
    (h : jsFalsy c = true ∨ jsFalsy d = true) :
    (deviceCheck f now c d st).response = Response.badRequest "Faltando customer_id ou device_id" ∧
    (deviceCheck f now c d st).state = st ∧
    (deviceCheck f now c d st).trace = [] ∧
    (deviceCheck f now (some "") (some "d1") st).response
        = Response.badRequest "Faltando customer_id ou device_id" ∧
    (deviceCheck f now (some "c1") (some "") st).response
        = Response.badRequest "Faltando customer_id ou device_id" := by
  have hmain : deviceCheck f now c d st
      = ⟨Response.badRequest "Faltando customer_id ou device_id", st, []⟩ := by
    unfold deviceCheck
    rcases h with h | h <;> simp [h]
  refine ⟨by rw [hmain], by rw [hmain], by rw [hmain], ?_, ?_⟩ <;> simp [deviceCheck, jsFalsy]

theorem C4_witness :
    (deviceCheck noFaults 0 (some "") (some "d1") ⟨none, []⟩).response
        = Response.badRequest "Faltando customer_id ou device_id" ∧
    (deviceCheck noFaults 0 (some "") (some "d1") ⟨none, []⟩).state = (⟨none, []⟩ : DBState) ∧
    (deviceCheck noFaults 0 (some "") (some "d1") ⟨none, []⟩).trace = [] ∧
    (deviceCheck noFaults 0 (some "") (some "d1") ⟨none, []⟩).response
        = Response.badRequest "Faltando customer_id ou device_id" ∧
    (deviceCheck noFaults 0 (some "c1") (some "") ⟨none, []⟩).response
        = Response.badRequest "Faltando customer_id ou device_id" :=
  C4_invalid_request noFaults 0 (some "") (some "d1") ⟨none, []⟩ (Or.inl (by decide))

/-- Claim C2: checking an already-registered `(customer_id, device_id)`
pair answers 200 with the already-registered message, whatever the
customer's current count is relative to the limit, and leaves the number
of device rows of every customer unchanged. -/
theorem C2_already_registered (f : DBFaults) (now : Nat) (cid did : String)
    (st : DBState) (row : DeviceRow)
    (hread : f.devicesReadFails = false)
    (hcid : cid ≠ "") (hdid : did ≠ "")
    (hmem : row ∈ st.devices) (hrc : row.customer_id = cid) (hrd : row.device_id = did) :
    (deviceCheck f now (some cid) (some did) st).response
        = Response.ok "Dispositivo já registrado" ∧
    ∀ c, (customerDevices (deviceCheck f now (some cid) (some did) st).state c).length
        = (customerDevices st c).length := by
  rw [deviceCheck_some f now cid did st hcid hdid,
      deviceCheckCore_already f now cid did (callConfig f st) st.devices hread
        ⟨row, hmem, hrc, hrd⟩]
  refine ⟨rfl, ?_⟩
  intro c
  by_cases hu : f.updateFails = true
  · rw [if_pos hu]
  · rw [if_neg hu]
    rw [customerDevices_update, applyUpdateLastSeen_length]

theorem C2_witness :
    (deviceCheck noFaults 0 (some "c1") (some "d1") ⟨none, [⟨"c1", "d1", 5⟩]⟩).response
        = Response.ok "Dispositivo já registrado" ∧
    ∀ c, (customerDevices
            (deviceCheck noFaults 0 (some "c1") (some "d1") ⟨none, [⟨"c1", "d1", 5⟩]⟩).state
            c).length
        = (customerDevices ⟨none, [⟨"c1", "d1", 5⟩]⟩ c).length :=
  C2_already_registered noFaults 0 "c1" "d1" ⟨none, [⟨"c1", "d1", 5⟩]⟩ ⟨"c1", "d1", 5⟩
    rfl (by decide) (by decide) (by simp) rfl rfl

/-- Claim C7: when the device is already registered and the `last_seen`
refresh write throws, the handler still answers 200 with the
already-registered message, and the state is unchanged. -/
theorem C7_refresh_failure_still_allowed (f : DBFaults) (now : Nat) (cid did : String)
    (st : DBState) (row : DeviceRow)
    (hread : f.devicesReadFails = false) (hupd : f.updateFails = true)
    (hcid : cid ≠ "") (hdid : did ≠ "")
    (hmem : row ∈ st.devices) (hrc : row.customer_id = cid) (hrd : row.device_id = did) :
    (deviceCheck f now (some cid) (some did) st).response
        = Response.ok "Dispositivo já registrado" ∧
    (deviceCheck f now (some cid) (some did) st).state = st := by
  rw [deviceCheck_some f now cid did st hcid hdid,
      deviceCheckCore_already f now cid did (callConfig f st) st.devices hread
        ⟨row, hmem, hrc, hrd⟩]
  exact ⟨rfl, by rw [if_pos hupd]⟩

theorem C7_witness :
    (deviceCheck ⟨false, false, true, false⟩ 0 (some "c1") (some "d1")
        ⟨none, [⟨"c1", "d1", 5⟩]⟩).response
        = Response.ok "Dispositivo já registrado" ∧
    (deviceCheck ⟨false, false, true, false⟩ 0 (some "c1") (some "d1")
        ⟨none, [⟨"c1", "d1", 5⟩]⟩).state = (⟨none, [⟨"c1", "d1", 5⟩]⟩ : DBState) :=
  C7_refresh_failure_still_allowed ⟨false, false, true, false⟩ 0 "c1" "d1"
    ⟨none, [⟨"c1", "d1", 5⟩]⟩ ⟨"c1", "d1", 5⟩ rfl rfl (by decide) (by decide) (by simp) rfl rfl

/-- Claim C6: when the device-set read throws, the call fails with the
500 response, the state is unchanged, and no mutation of the registry is
attempted (the trace holds reads only). -/
theorem C6_device_read_fatal (f : DBFaults) (now : Nat) (c d : Option String) (st : DBState)
    (hc : jsFalsy c = false) (hd : jsFalsy d = false)
    (h : f.devicesReadFails = true) :
    (deviceCheck f now c d st).response = Response.serverError "Erro ao verificar dispositivos" ∧
    (deviceCheck f now c d st).state = st ∧
    ∀ a ∈ (deviceCheck f now c d st).trace, a.op.isMutation = false := by
  cases c with
  | none => simp [jsFalsy] at hc
  | some cs =>
    cases d with
    | none => simp [jsFalsy] at hd
    | some ds =>
      have hcs : ¬ cs = "" := by simpa [jsFalsy] using hc
      have hds : ¬ ds = "" := by simpa [jsFalsy] using hd
      rw [deviceCheck_some f now cs ds st hcs hds,
          deviceCheckCore_readFail f now cs ds (callConfig f st) st.devices h]
      refine ⟨rfl, rfl, ?_⟩
      intro a ha
      simp only [List.mem_cons, List.not_mem_nil, or_false] at ha
      rcases ha with rfl | rfl <;> rfl

theorem C6_witness :
    (deviceCheck ⟨false, true, false, false⟩ 0 (some "c1") (some "d1") ⟨none, []⟩).response
        = Response.serverError "Erro ao verificar dispositivos" ∧
    (deviceCheck ⟨false, true, false, false⟩ 0 (some "c1") (some "d1") ⟨none, []⟩).state
        = (⟨none, []⟩ : DBState) ∧
    ∀ a ∈ (deviceCheck ⟨false, true, false, false⟩ 0 (some "c1") (some "d1") ⟨none, []⟩).trace,
      a.op.isMutation = false :=
  C6_device_read_fatal ⟨false, true, false, false⟩ 0 (some "c1") (some "d1") ⟨none, []⟩
    rfl rfl rfl

/-- Claim C5: when the settings read throws or no settings row exists,
the call proceeds as if the store held no row at all: the effective limit
is the default 2, the block message is the default one, the response and
resulting registry are those computed against defaults, and any 500 error
of the call comes from the device-set read or the insert, never from the
settings read. -/
theorem C5_settings_fallback (f : DBFaults) (now : Nat) (c d : Option String) (st : DBState)
    (h : f.settingsReadFails = true ∨ st.settings = none) :
    effectiveMaxDevices (callConfig f st) = 2 ∧
    effectiveBlockMessage (callConfig f st) = "Limite de dispositivos atingido." ∧
    (deviceCheck f now c d st).response = (deviceCheck f now c d ⟨none, st.devices⟩).response ∧
    (deviceCheck f now c d st).state.devices
        = (deviceCheck f now c d ⟨none, st.devices⟩).state.devices ∧
    ∀ e, (deviceCheck f now c d st).response = Response.serverError e →
      f.devicesReadFails = true ∨ f.insertFails = true := by
  have hcc : callConfig f st = none := by
    rcases h with h | h <;> simp [callConfig, h]
  have hcc2 : callConfig f ⟨none, st.devices⟩ = none := by
    simp [callConfig]
  refine ⟨by rw [hcc]; rfl, by rw [hcc]; rfl, ?_, ?_, ?_⟩
  · unfold deviceCheck
    by_cases hv : (jsFalsy c || jsFalsy d) = true
    · rw [if_pos hv, if_pos hv]
    · rw [if_neg hv, if_neg hv, hcc, hcc2]
  · unfold deviceCheck
    by_cases hv : (jsFalsy c || jsFalsy d) = true
    · rw [if_pos hv, if_pos hv]
    · rw [if_neg hv, if_neg hv, hcc, hcc2]
  · intro e he
    unfold deviceCheck at he
    by_cases hv : (jsFalsy c || jsFalsy d) = true
    · rw [if_pos hv] at he
      exact absurd he (by simp)
    · rw [if_neg hv] at he
      exact deviceCheckCore_serverError f now (c.getD "") (d.getD "") (callConfig f st)
        st.devices e he

theorem C5_witness :
    effectiveMaxDevices (callConfig noFaults ⟨none, [⟨"c1", "dA", 0⟩, ⟨"c1", "dB", 0⟩]⟩) = 2 ∧
    effectiveBlockMessage (callConfig noFaults ⟨none, [⟨"c1", "dA", 0⟩, ⟨"c1", "dB", 0⟩]⟩)
        = "Limite de dispositivos atingido." ∧
    (deviceCheck noFaults 0 (some "c1") (some "dC")
        ⟨none, [⟨"c1", "dA", 0⟩, ⟨"c1", "dB", 0⟩]⟩).response
      = (deviceCheck noFaults 0 (some "c1") (some "dC")
          ⟨none, [⟨"c1", "dA", 0⟩, ⟨"c1", "dB", 0⟩]⟩).response ∧
    (deviceCheck noFaults 0 (some "c1") (some "dC")
        ⟨none, [⟨"c1", "dA", 0⟩, ⟨"c1", "dB", 0⟩]⟩).state.devices
      = (deviceCheck noFaults 0 (some "c1") (some "dC")
          ⟨none, [⟨"c1", "dA", 0⟩, ⟨"c1", "dB", 0⟩]⟩).state.devices ∧
    ∀ e, (deviceCheck noFaults 0 (some "c1") (some "dC")
        ⟨none, [⟨"c1", "dA", 0⟩, ⟨"c1", "dB", 0⟩]⟩).response = Response.serverError e →
      noFaults.devicesReadFails = true ∨ noFaults.insertFails = true :=
  C5_settings_fallback noFaults 0 (some "c1") (some "dC")
    ⟨none, [⟨"c1", "dA", 0⟩, ⟨"c1", "dB", 0⟩]⟩ (Or.inr rfl)

/-- Claim C10: the effective-limit coercions are falsy-based:
`POST /api/settings` rejects exactly a missing `max_devices` or a falsy
`block_message` (so zero and negative `max_devices` are accepted and
stored), a stored `max_devices = 0` makes the device check use the
default limit 2 rather than 0 (a customer with no devices is allowed to
register even though the stored limit is 0), and a stored empty-string
`block_message` is replaced by the default denial message. -/
theorem C10_falsy_coercions :
    (∀ (md : Option Int) (bm : Option String) (st : DBState),
        (settingsUpsert md bm st).1
            = SettingsResponse.badRequest "max_devices e block_message são obrigatórios"
          ↔ (md = none ∨ jsFalsy bm = true)) ∧
    (∀ b : String, effectiveMaxDevices (some ⟨0, b⟩) = 2) ∧
    (∀ m : Int, effectiveBlockMessage (some ⟨m, ""⟩) = "Limite de dispositivos atingido.") ∧
    (settingsUpsert (some 0) (some "Bloqueado") ⟨none, []⟩).2.settings
        = some ⟨0, "Bloqueado"⟩ ∧
    (settingsUpsert (some (-1)) (some "Bloqueado") ⟨none, []⟩).1 = SettingsResponse.okTrue ∧
    (deviceCheck noFaults 0 (some "c1") (some "d1")
        (settingsUpsert (some 0) (some "Bloqueado") ⟨none, []⟩).2).response
      = Response.ok "Dispositivo registrado" := by
  refine ⟨?_, ?_, ?_, by decide, by decide, by decide⟩
  · intro md bm st
    by_cases hcond : (md.isNone || jsFalsy bm) = true
    · rw [settingsUpsert, if_pos hcond]
      simp only [Bool.or_eq_true, Option.isNone_iff_eq_none] at hcond
      exact iff_of_true rfl hcond
    · rw [settingsUpsert, if_neg hcond]
      simp only [Bool.or_eq_true, Option.isNone_iff_eq_none] at hcond
      exact iff_of_false (by simp) hcond
  · intro b
    simp [effectiveMaxDevices]
  · intro m
    simp [effectiveBlockMessage]

/-- Exhaustive description of one device-check call: it ends in one of
the seven terminal branches of the handler, and when it inserts a row the
device was fresh and the customer strictly below the effective limit. -/
theorem deviceCheck_cases (f : DBFaults) (now : Nat) (c d : Option String) (st : DBState) :
    deviceCheck f now c d st = ⟨Response.badRequest "Faltando customer_id ou device_id", st, []⟩ ∨
    (∃ cid did, c = some cid ∧ d = some did ∧
      (deviceCheck f now c d st
          = ⟨Response.serverError "Erro ao verificar dispositivos", st,
             [⟨DBOp.readSettings, !f.settingsReadFails⟩, ⟨DBOp.readDevices cid, false⟩]⟩ ∨
       deviceCheck f now c d st
          = ⟨Response.ok "Dispositivo já registrado", st,
             [⟨DBOp.readSettings, !f.settingsReadFails⟩, ⟨DBOp.readDevices cid, true⟩,
              ⟨DBOp.updateLastSeen cid did, false⟩]⟩ ∨
       deviceCheck f now c d st
          = ⟨Response.ok "Dispositivo já registrado",
             ⟨st.settings, applyUpdateLastSeen now cid did st.devices⟩,
             [⟨DBOp.readSettings, !f.settingsReadFails⟩, ⟨DBOp.readDevices cid, true⟩,
              ⟨DBOp.updateLastSeen cid did, true⟩]⟩ ∨
       deviceCheck f now c d st
          = ⟨Response.forbidden (effectiveBlockMessage (callConfig f st)), st,
             [⟨DBOp.readSettings, !f.settingsReadFails⟩, ⟨DBOp.readDevices cid, true⟩]⟩ ∨
       deviceCheck f now c d st
          = ⟨Response.serverError "Erro ao registrar dispositivo", st,
             [⟨DBOp.readSettings, !f.settingsReadFails⟩, ⟨DBOp.readDevices cid, true⟩,
              ⟨DBOp.insertDevice cid did, false⟩]⟩ ∨
       (did ∉ registeredIds st cid ∧
        ((customerDevices st cid).length : Int) < effectiveMaxDevices (callConfig f st) ∧
        deviceCheck f now c d st
          = ⟨Response.ok "Dispositivo registrado",
             ⟨st.settings, st.devices ++ [⟨cid, did, now⟩]⟩,
             [⟨DBOp.readSettings, !f.settingsReadFails⟩, ⟨DBOp.readDevices cid, true⟩,
              ⟨DBOp.insertDevice cid did, true⟩]⟩))) := by
  by_cases hv : (jsFalsy c || jsFalsy d) = true
  · left
    unfold deviceCheck
    rw [if_pos hv]
  · right
    simp only [Bool.or_eq_true, not_or, Bool.not_eq_true] at hv
    obtain ⟨hc, hd⟩ := hv
    cases c with
    | none => simp [jsFalsy] at hc
    | some cs =>
      cases d with
      | none => simp [jsFalsy] at hd
      | some ds =>
        simp only [jsFalsy, decide_eq_false_iff_not] at hc hd
        refine ⟨cs, ds, rfl, rfl, ?_⟩
        rw [deviceCheck_some f now cs ds st hc hd]
        by_cases hr : f.devicesReadFails = true
        · rw [deviceCheckCore_readFail f now cs ds (callConfig f st) st.devices hr]
          exact Or.inl rfl
        · have hr2 : f.devicesReadFails = false := by simpa using hr
          cases hfind : (st.devices.filter (fun r => decide (r.customer_id = cs))).find?
              (fun r => decide (r.device_id = ds)) with
          | some r =>
            have hmem : ∃ r2 ∈ st.devices, r2.customer_id = cs ∧ r2.device_id = ds := by
              have h1 := List.mem_of_find?_eq_some hfind
              have h2 := List.find?_some hfind
              have h3 := List.mem_filter.mp h1
              exact ⟨r, h3.1, by simpa using h3.2, by simpa using h2⟩
            rw [deviceCheckCore_already f now cs ds (callConfig f st) st.devices hr2 hmem]
            by_cases hu : f.updateFails = true
            · right; left
              rw [if_pos hu, hu]
              rfl
            · right; right; left
              have hu2 : f.updateFails = false := by simpa using hu
              rw [if_neg hu, hu2]
              rfl
          | none =>
            have hfresh : ds ∉ registeredIds st cs :=
              not_registered_of_find?_eq_none st cs ds hfind
            by_cases hge : effectiveMaxDevices (callConfig f st)
                ≤ ((st.devices.filter (fun r => decide (r.customer_id = cs))).length : Int)
            · rw [deviceCheckCore_deny f now cs ds (callConfig f st) st.devices hr2 hfind hge]
              right; right; right
              exact Or.inl rfl
            · have hlt := lt_of_not_le hge
              by_cases hi : f.insertFails = true
              · rw [deviceCheckCore_insertFail f now cs ds (callConfig f st) st.devices
                    hr2 hi hfind hlt]
                right; right; right; right
                exact Or.inl rfl
              · have hi2 : f.insertFails = false := by simpa using hi
                rw [deviceCheckCore_register f now cs ds (callConfig f st) st.devices
                    hr2 hi2 hfind hlt]
                right; right; right; right; right
                exact ⟨hfresh, hlt, rfl⟩

/-- The timestamp refresh keeps every row's identifying pair. -/
theorem applyUpdateLastSeen_ids (now : Nat) (cid did : String) (l : List DeviceRow) :
    ∀ row ∈ l, ∃ row2 ∈ applyUpdateLastSeen now cid did l,
      row2.customer_id = row.customer_id ∧ row2.device_id = row.device_id := by
  intro row hrow
  exact ⟨(if row.customer_id = cid ∧ row.device_id = did then { row with last_seen := now } else row),
    List.mem_map_of_mem _ hrow,
    applyUpdate_customer_id now cid did row,
    applyUpdate_device_id now cid did row⟩

/-- Claim C3: a sequential device-check call preserves the per-customer
limit invariant: if the number of distinct registered device identifiers
of a customer is at most the effective limit of the call, it still is
afterwards; and when the call's customer is already at or over that
limit, no row is inserted. -/
theorem C3_limit_invariant (f : DBFaults) (now : Nat) (c d : Option String)
    (st : DBState) (cid : String)
    (h : ((registeredIds st cid).toFinset.card : Int) ≤ effectiveMaxDevices (callConfig f st)) :
    ((registeredIds (deviceCheck f now c d st).state cid).toFinset.card : Int)
        ≤ effectiveMaxDevices (callConfig f st) ∧
    ∀ cid2, c = some cid2 →
      effectiveMaxDevices (callConfig f st) ≤ ((customerDevices st cid2).length : Int) →
      (deviceCheck f now c d st).state.devices.length = st.devices.length := by
  rcases deviceCheck_cases f now c d st with hcase | ⟨ci, di, hc, hd, hcase⟩
  · rw [hcase]
    exact ⟨h, fun _ _ _ => rfl⟩
  rcases hcase with hcase | hcase | hcase | hcase | hcase | ⟨hfresh, hlt, hcase⟩
  · rw [hcase]
    exact ⟨h, fun _ _ _ => rfl⟩
  · rw [hcase]
    exact ⟨h, fun _ _ _ => rfl⟩
  · rw [hcase]
    constructor
    · rw [registeredIds_update]
      exact h
    · exact fun _ _ _ => applyUpdateLastSeen_length now ci di st.devices
  · rw [hcase]
    exact ⟨h, fun _ _ _ => rfl⟩
  · rw [hcase]
    exact ⟨h, fun _ _ _ => rfl⟩
  · rw [hcase]
    constructor
    · have happ : registeredIds ⟨st.settings, st.devices ++ [⟨ci, di, now⟩]⟩ cid
          = registeredIds st cid ++ (if ci = cid then [di] else []) := by
        simpa using registeredIds_append st.settings st.devices ⟨ci, di, now⟩ cid
      rw [happ]
      by_cases hcc : ci = cid
      · rw [if_pos hcc]
        rw [hcc] at hlt
        have h1 : ((registeredIds st cid ++ [di]).toFinset).card
            ≤ (registeredIds st cid).toFinset.card + 1 := by
          rw [List.toFinset_append]
          refine le_trans (Finset.card_union_le _ _) ?_
          simp
        have h2 : (registeredIds st cid).toFinset.card ≤ (registeredIds st cid).length :=
          List.toFinset_card_le _
        have h3 : (registeredIds st cid).length = (customerDevices st cid).length := by
          simp [registeredIds]
        omega
      · rw [if_neg hcc]
        simpa using h
    · intro cid2 hc2 hge
      rw [hc] at hc2
      injection hc2 with hc2
      rw [← hc2] at hge
      exact absurd hlt (not_lt.mpr hge)

theorem C3_witness :
    ((registeredIds (deviceCheck noFaults 0 (some "c1") (some "d1") ⟨none, []⟩).state
        "c1").toFinset.card : Int)
        ≤ effectiveMaxDevices (callConfig noFaults ⟨none, []⟩) ∧
    ∀ cid2, (some "c1" : Option String) = some cid2 →
      effectiveMaxDevices (callConfig noFaults ⟨none, []⟩)
          ≤ ((customerDevices ⟨none, []⟩ cid2).length : Int) →
      (deviceCheck noFaults 0 (some "c1") (some "d1") ⟨none, []⟩).state.devices.length
          = (⟨none, []⟩ : DBState).devices.length :=
  C3_limit_invariant noFaults 0 (some "c1") (some "d1") ⟨none, []⟩ "c1" (by decide)

/-- Claim C8: frame of a single device-check call: the registry never
shrinks (no row is deleted: every identifying pair survives), it grows by
at most one row, and the call executes at most one mutating SQL statement
— one `last_seen` update or one insert, never both. -/
theorem C8_single_mutation_frame (f : DBFaults) (now : Nat) (c d : Option String)
    (st : DBState) :
    ((deviceCheck f now c d st).state.devices.length = st.devices.length ∨
     (deviceCheck f now c d st).state.devices.length = st.devices.length + 1) ∧
    (∀ row ∈ st.devices, ∃ row2 ∈ (deviceCheck f now c d st).state.devices,
        row2.customer_id = row.customer_id ∧ row2.device_id = row.device_id) ∧
    ((deviceCheck f now c d st).trace.filter (fun a => a.op.isMutation) = [] ∨
     (∃ x y b, (deviceCheck f now c d st).trace.filter (fun a => a.op.isMutation)
        = [⟨DBOp.updateLastSeen x y, b⟩]) ∨
     (∃ x y b, (deviceCheck f now c d st).trace.filter (fun a => a.op.isMutation)
        = [⟨DBOp.insertDevice x y, b⟩])) := by
  have hid : ∀ l : List DeviceRow, ∀ row ∈ l, ∃ row2 ∈ l,
      row2.customer_id = row.customer_id ∧ row2.device_id = row.device_id :=
    fun l row hrow => ⟨row, hrow, rfl, rfl⟩
  rcases deviceCheck_cases f now c d st with hcase | ⟨ci, di, hc, hd, hcase⟩
  · rw [hcase]
    exact ⟨Or.inl rfl, hid st.devices, Or.inl rfl⟩
  rcases hcase with hcase | hcase | hcase | hcase | hcase | ⟨hfresh, hlt, hcase⟩
  · rw [hcase]
    refine ⟨Or.inl rfl, hid st.devices, Or.inl ?_⟩
    simp [DBOp.isMutation]
  · rw [hcase]
    refine ⟨Or.inl rfl, hid st.devices, Or.inr (Or.inl ⟨ci, di, false, ?_⟩)⟩
    simp [DBOp.isMutation]
  · rw [hcase]
    refine ⟨Or.inl (applyUpdateLastSeen_length now ci di st.devices),
            applyUpdateLastSeen_ids now ci di st.devices,
            Or.inr (Or.inl ⟨ci, di, true, ?_⟩)⟩
    simp [DBOp.isMutation]
  · rw [hcase]
    refine ⟨Or.inl rfl, hid st.devices, Or.inl ?_⟩
    simp [DBOp.isMutation]
  · rw [hcase]
    refine ⟨Or.inl rfl, hid st.devices, Or.inr (Or.inr ⟨ci, di, false, ?_⟩)⟩
    simp [DBOp.isMutation]
  · rw [hcase]
    refine ⟨Or.inr ?_, ?_, Or.inr (Or.inr ⟨ci, di, true, ?_⟩)⟩
    · simp
    · intro row hrow
      exact ⟨row, List.mem_append_left _ hrow, rfl, rfl⟩
    · simp [DBOp.isMutation]

/-- Claim C9: registration is idempotent: for a customer strictly below
its effective limit and a device not yet registered, two immediately
successive fault-free checks insert exactly one row; the first answers
"Dispositivo registrado", the second "Dispositivo já registrado". -/
theorem C9_idempotent_registration (now1 now2 : Nat) (cid did : String) (st : DBState)
    (hcid : cid ≠ "") (hdid : did ≠ "")
    (hfresh : did ∉ registeredIds st cid)
    (hlt : ((customerDevices st cid).length : Int) < effectiveMaxDevices st.settings) :
    (deviceCheck noFaults now1 (some cid) (some did) st).response
        = Response.ok "Dispositivo registrado" ∧
    (deviceCheck noFaults now2 (some cid) (some did)
        (deviceCheck noFaults now1 (some cid) (some did) st).state).response
        = Response.ok "Dispositivo já registrado" ∧
    (deviceCheck noFaults now2 (some cid) (some did)
        (deviceCheck noFaults now1 (some cid) (some did) st).state).state.devices.length
        = st.devices.length + 1 := by
  have h1 : deviceCheck noFaults now1 (some cid) (some did) st
      = ⟨Response.ok "Dispositivo registrado",
         ⟨st.settings, st.devices ++ [(⟨cid, did, now1⟩ : DeviceRow)]⟩,
         [⟨DBOp.readSettings, true⟩, ⟨DBOp.readDevices cid, true⟩,
          ⟨DBOp.insertDevice cid did, true⟩]⟩ := by
    rw [deviceCheck_some noFaults now1 cid did st hcid hdid,
        deviceCheckCore_register noFaults now1 cid did (callConfig noFaults st) st.devices
          rfl rfl (find?_eq_none_of_not_registered st cid did hfresh) hlt]
    rfl
  have hmem1 : (⟨cid, did, now1⟩ : DeviceRow) ∈ st.devices ++ [(⟨cid, did, now1⟩ : DeviceRow)] := by
    simp
  have h2 : deviceCheck noFaults now2 (some cid) (some did)
        ⟨st.settings, st.devices ++ [(⟨cid, did, now1⟩ : DeviceRow)]⟩
      = ⟨Response.ok "Dispositivo já registrado",
         ⟨st.settings,
          applyUpdateLastSeen now2 cid did (st.devices ++ [(⟨cid, did, now1⟩ : DeviceRow)])⟩,
         [⟨DBOp.readSettings, true⟩, ⟨DBOp.readDevices cid, true⟩,
          ⟨DBOp.updateLastSeen cid did, true⟩]⟩ := by
    rw [deviceCheck_some noFaults now2 cid did
          (⟨st.settings, st.devices ++ [(⟨cid, did, now1⟩ : DeviceRow)]⟩ : DBState) hcid hdid,
        deviceCheckCore_already noFaults now2 cid did
          (callConfig noFaults
            (⟨st.settings, st.devices ++ [(⟨cid, did, now1⟩ : DeviceRow)]⟩ : DBState))
          (st.devices ++ [(⟨cid, did, now1⟩ : DeviceRow)]) rfl
          ⟨(⟨cid, did, now1⟩ : DeviceRow), hmem1, rfl, rfl⟩]
    rfl
  rw [h1]
  refine ⟨rfl, ?_, ?_⟩
  · rw [h2]
  · rw [h2]
    simp [applyUpdateLastSeen_length]

theorem C9_witness :
    (deviceCheck noFaults 1 (some "c1") (some "d1") ⟨none, []⟩).response
        = Response.ok "Dispositivo registrado" ∧
    (deviceCheck noFaults 2 (some "c1") (some "d1")
        (deviceCheck noFaults 1 (some "c1") (some "d1") ⟨none, []⟩).state).response
        = Response.ok "Dispositivo já registrado" ∧
    (deviceCheck noFaults 2 (some "c1") (some "d1")
        (deviceCheck noFaults 1 (some "c1") (some "d1") ⟨none, []⟩).state).state.devices.length
        = (⟨none, []⟩ : DBState).devices.length + 1 :=
  C9_idempotent_registration 1 2 "c1" "d1" ⟨none, []⟩ (by decide) (by decide) (by decide)
    (by decide)

/-- A fault-free run over pairwise-distinct fresh identifiers that fit
under the limit registers each of them, keeps the settings row, and
appends exactly the corresponding rows for the customer. -/
theorem runChecks_register_all (now : Nat) (cid : String) (dids : List String) :
    ∀ st : DBState, cid ≠ "" → dids.Nodup →
    (∀ x ∈ dids, x ≠ "") → (∀ x ∈ dids, x ∉ registeredIds st cid) →
    ((customerDevices st cid).length : Int) + dids.length ≤ effectiveMaxDevices st.settings →
    (runChecks noFaults now cid dids st).1
        = List.replicate dids.length (Response.ok "Dispositivo registrado") ∧
    (runChecks noFaults now cid dids st).2.settings = st.settings ∧
    customerDevices (runChecks noFaults now cid dids st).2 cid
        = customerDevices st cid ++ dids.map (fun x => ⟨cid, x, now⟩) := by
  induction dids with
  | nil =>
    intro st _ _ _ _ _
    exact ⟨rfl, rfl, by simp [runChecks]⟩
  | cons d rest ih =>
    intro st hcid hnodup hne hfreshAll hlen
    obtain ⟨hdnotin, hrestnodup⟩ := List.nodup_cons.mp hnodup
    have hdne : d ≠ "" := hne d (by simp)
    have hfresh : d ∉ registeredIds st cid := hfreshAll d (by simp)
    have hlt : ((customerDevices st cid).length : Int) < effectiveMaxDevices st.settings := by
      simp only [List.length_cons] at hlen
      push_cast at hlen
      omega
    have hstep : deviceCheck noFaults now (some cid) (some d) st
        = ⟨Response.ok "Dispositivo registrado",
           ⟨st.settings, st.devices ++ [⟨cid, d, now⟩]⟩,
           [⟨DBOp.readSettings, true⟩, ⟨DBOp.readDevices cid, true⟩,
            ⟨DBOp.insertDevice cid d, true⟩]⟩ := by
      rw [deviceCheck_some noFaults now cid d st hcid hdne,
          deviceCheckCore_register noFaults now cid d (callConfig noFaults st) st.devices
            rfl rfl (find?_eq_none_of_not_registered st cid d hfresh) hlt]
      rfl
    have hcd1 : customerDevices ⟨st.settings, st.devices ++ [⟨cid, d, now⟩]⟩ cid
        = customerDevices st cid ++ [⟨cid, d, now⟩] := by
      simpa using customerDevices_append st.settings st.devices ⟨cid, d, now⟩ cid
    have hri1 : registeredIds ⟨st.settings, st.devices ++ [⟨cid, d, now⟩]⟩ cid
        = registeredIds st cid ++ [d] := by
      simpa using registeredIds_append st.settings st.devices ⟨cid, d, now⟩ cid
    have hfresh1 : ∀ x ∈ rest,
        x ∉ registeredIds ⟨st.settings, st.devices ++ [⟨cid, d, now⟩]⟩ cid := by
      intro x hx
      rw [hri1]
      simp only [List.mem_append, List.mem_singleton]
      push_neg
      exact ⟨hfreshAll x (List.mem_cons_of_mem d hx), fun hxd => hdnotin (hxd ▸ hx)⟩
    have hlen1 : ((customerDevices ⟨st.settings, st.devices ++ [⟨cid, d, now⟩]⟩ cid).length : Int)
          + rest.length
        ≤ effectiveMaxDevices (⟨st.settings, st.devices ++ [⟨cid, d, now⟩]⟩ : DBState).settings := by
      rw [hcd1, List.length_append]
      simp only [List.length_cons, List.length_singleton, List.length_nil] at hlen ⊢
      push_cast at hlen ⊢
      omega
    have ihres := ih ⟨st.settings, st.devices ++ [⟨cid, d, now⟩]⟩ hcid hrestnodup
      (fun x hx => hne x (List.mem_cons_of_mem d hx)) hfresh1 hlen1
    have hrun : runChecks noFaults now cid (d :: rest) st
        = (Response.ok "Dispositivo registrado"
            :: (runChecks noFaults now cid rest ⟨st.settings, st.devices ++ [⟨cid, d, now⟩]⟩).1,
           (runChecks noFaults now cid rest ⟨st.settings, st.devices ++ [⟨cid, d, now⟩]⟩).2) := by
      simp only [runChecks, hstep]
    rw [hrun]
    refine ⟨?_, ihres.2.1, ?_⟩
    · rw [List.length_cons, List.replicate_succ, ihres.1]
    · rw [ihres.2.2, hcd1, List.map_cons, List.append_assoc]
      rfl

/-- Claim C1: for a customer with zero registered devices and effective
limit `N > 0`, a fault-free sequence of checks over `N` pairwise-distinct
device identifiers answers "Dispositivo registrado" (200) every time, and
a further check with an `(N+1)`th distinct identifier is denied with the
403 block message. -/
theorem C1_first_N_registered_then_denied (st : DBState) (cid dExtra : String)
    (dids : List String) (now : Nat)
    (hcid : cid ≠ "")
    (hzero : customerDevices st cid = [])
    (hN : (dids.length : Int) = effectiveMaxDevices st.settings)
    (_hNpos : 0 < effectiveMaxDevices st.settings)
    (hnodup : (dExtra :: dids).Nodup)
    (hne : ∀ x ∈ dExtra :: dids, x ≠ "") :
    (runChecks noFaults now cid dids st).1
        = List.replicate dids.length (Response.ok "Dispositivo registrado") ∧
    (deviceCheck noFaults now (some cid) (some dExtra)
        (runChecks noFaults now cid dids st).2).response
        = Response.forbidden (effectiveBlockMessage st.settings) := by
  obtain ⟨hextraNotin, hdidsNodup⟩ := List.nodup_cons.mp hnodup
  have hzeroIds : registeredIds st cid = [] := by
    simp [registeredIds, hzero]
  have hrun := runChecks_register_all now cid dids st hcid hdidsNodup
    (fun x hx => hne x (List.mem_cons_of_mem dExtra hx))
    (fun x _ => by simp [hzeroIds])
    (by rw [hzero]; simpa using le_of_eq hN)
  refine ⟨hrun.1, ?_⟩
  have hsettings : (runChecks noFaults now cid dids st).2.settings = st.settings := hrun.2.1
  have hcdF : customerDevices (runChecks noFaults now cid dids st).2 cid
      = dids.map (fun x => ⟨cid, x, now⟩) := by
    rw [hrun.2.2, hzero]
    rfl
  have hriF : registeredIds (runChecks noFaults now cid dids st).2 cid = dids := by
    rw [registeredIds, hcdF, List.map_map]
    have hco : (DeviceRow.device_id ∘ fun x => (⟨cid, x, now⟩ : DeviceRow)) = id := rfl
    rw [hco, List.map_id]
  have hfreshF : dExtra ∉ registeredIds (runChecks noFaults now cid dids st).2 cid := by
    rw [hriF]
    exact hextraNotin
  have hgeF : effectiveMaxDevices
        (callConfig noFaults (runChecks noFaults now cid dids st).2)
      ≤ ((customerDevices (runChecks noFaults now cid dids st).2 cid).length : Int) := by
    rw [callConfig_noFaults, hsettings, hcdF, List.length_map, ← hN]
  have hextra_ne : dExtra ≠ "" := hne dExtra (by simp)
  rw [deviceCheck_some noFaults now cid dExtra (runChecks noFaults now cid dids st).2
        hcid hextra_ne,
      deviceCheckCore_deny noFaults now cid dExtra
        (callConfig noFaults (runChecks noFaults now cid dids st).2)
        (runChecks noFaults now cid dids st).2.devices rfl
        (find?_eq_none_of_not_registered (runChecks noFaults now cid dids st).2 cid dExtra
          hfreshF)
        hgeF]
  rw [callConfig_noFaults, hsettings]

theorem C1_witness :
    (runChecks noFaults 0 "c1" ["d1", "d2"] ⟨some ⟨2, "Bloqueado"⟩, []⟩).1
        = List.replicate (["d1", "d2"] : List String).length
            (Response.ok "Dispositivo registrado") ∧
    (deviceCheck noFaults 0 (some "c1") (some "d3")
        (runChecks noFaults 0 "c1" ["d1", "d2"] ⟨some ⟨2, "Bloqueado"⟩, []⟩).2).response
        = Response.forbidden (effectiveBlockMessage (some ⟨2, "Bloqueado"⟩)) :=
  C1_first_N_registered_then_denied ⟨some ⟨2, "Bloqueado"⟩, []⟩ "c1" "d3" ["d1", "d2"] 0
    (by decide) rfl (by decide) (by decide) (by decide) (by decide)

end BackendAppShop
